import Mathlib

/-!
Shallow embedding of `src/app.py` (a Streamlit app that chains an image
endpoint, a text endpoint, gTTS and moviepy into a short video), together
with theorems settling the specification claims.

External services (HTTP endpoints, gTTS, moviepy, Streamlit widgets) are
modelled by an explicit environment `Env` that supplies each call's outcome;
the orchestration logic itself is translated function by function.
-/

namespace App

/-- A Python value as produced by `res.json()` on the text endpoint.
JSON numbers are modelled as integers (no float in the model). -/
inductive JsonValue where
  | null
  | bool (b : Bool)
  | num (n : Int)
  | str (s : String)
  | arr (items : List JsonValue)
  | obj (fields : List (String × JsonValue))

/-- Python `repr` of a JSON-decoded value (dict/list rendering with single
quotes; string escaping is not modelled). -/
def pyRepr : JsonValue → String
  | .null => "None"
  | .bool b => if b then "True" else "False"
  | .num n => toString n
  | .str s => "'" ++ s ++ "'"
  | .arr items =>
      "[" ++ String.intercalate ", " (items.attach.map fun x => pyRepr x.1) ++ "]"
  | .obj fields =>
      "\x7b" ++ String.intercalate ", "
        (fields.attach.map fun x => "'" ++ x.1.1 ++ "': " ++ pyRepr x.1.2) ++ "\x7d"
decreasing_by
  · have := List.sizeOf_lt_of_mem x.2
    simp [JsonValue.arr.sizeOf_spec]
    omega
  · obtain ⟨⟨k, v⟩, hm⟩ := x
    have h1 := List.sizeOf_lt_of_mem hm
    simp [JsonValue.obj.sizeOf_spec] at *
    omega

/-- Python `str` of a JSON-decoded value: a string prints as itself,
containers print via `repr`. -/
def pyStr : JsonValue → String
  | .str s => s
  | v => pyRepr v

/-- Python dict key lookup (`data["generated_text"]` / `"generated_text" in data`). -/
def lookupField (fields : List (String × JsonValue)) (key : String) : Option JsonValue :=
  match fields with
  | [] => none
  | (k, v) :: rest => if k = key then some v else lookupField rest key

/-- An HTTP response as seen by `requests.post`: status code, raw body bytes
(`res.content`) and decoded body text (`res.text`). -/
structure HttpResponse where
  status : Nat
  content : List Nat
  text : String
deriving DecidableEq, Repr

/-- A response from the text endpoint: status, decoded JSON body
(`res.json()`) and body text. -/
structure TextResponse where
  status : Nat
  data : JsonValue
  text : String

/-- Exceptions the pipeline can raise.  The source raises plain `Exception`
with an f-string message; each raise site is modelled as a constructor
carrying the payload of its message. -/
inductive PyError where
  /-- `Exception(f"Hugging Face image inference failed: \x7bres.status_code\x7d \x7bres.text\x7d")` -/
  | imageInferenceFailed (status : Nat) (text : String)
  /-- `Exception(f"Hugging Face text inference failed: \x7bres.status_code\x7d \x7bres.text\x7d")` -/
  | textInferenceFailed (status : Nat) (text : String)
  /-- a `requests` exception (connection error, timeout, bad JSON, ...) -/
  | requestFailure (msg : String)
  /-- an exception from gTTS. -/
  | ttsFailure (msg : String)
  /-- an exception from moviepy rendering -/
  | renderFailure (msg : String)
  /-- script value is not a string, so gTTS / textwrap raise -/
  | typeError (msg : String)
deriving DecidableEq, Repr

/-- The message string of the Python exception (mirrors each f-string). -/
def PyError.message : PyError → String
  | .imageInferenceFailed status text =>
      "Hugging Face image inference failed: " ++ toString status ++ " " ++ text
  | .textInferenceFailed status text =>
      "Hugging Face text inference failed: " ++ toString status ++ " " ++ text
  | .requestFailure msg => msg
  | .ttsFailure msg => msg
  | .renderFailure msg => msg
  | .typeError msg => msg

/-- Outcome of one network call: either the request itself raises, or a
response arrives. -/
inductive NetResult (α : Type) where
  | fail (e : PyError)
  | respond (r : α)
deriving DecidableEq, Repr

/-- `call_hf_inference_image(prompt, hf_token)` (src/app.py:19-26), applied to
the response the endpoint returned: raises unless the status is exactly 200,
otherwise returns `res.content`.  The prompt and token only affect the
request, not this control flow. -/
def call_hf_inference_image (res : HttpResponse) : Except PyError (List Nat) :=
  if res.status ≠ 200 then
    .error (.imageInferenceFailed res.status res.text)
  else
    .ok res.content

/-- Shape dispatch of `call_hf_text_gen` (src/app.py:36-40): a dict with a
`"generated_text"` key returns that field; a non-empty list whose first
element is such a dict returns the field of that element; anything else
returns `str(data)`. -/
def extractGenerated (data : JsonValue) : JsonValue :=
  match data with
  | .obj fields =>
      match lookupField fields "generated_text" with
      | some v => v
      | none => .str (pyStr data)
  | .arr (first :: _) =>
      match first with
      | .obj fields =>
          match lookupField fields "generated_text" with
          | some v => v
          | none => .str (pyStr data)
      | _ => .str (pyStr data)
  | _ => .str (pyStr data)

/-- `call_hf_text_gen(prompt, hf_token)` (src/app.py:28-40), applied to the
response: raises unless the status is 200, otherwise extracts the generated
text from the JSON body. -/
def call_hf_text_gen (res : TextResponse) : Except PyError JsonValue :=
  if res.status ≠ 200 then
    .error (.textInferenceFailed res.status res.text)
  else
    .ok (extractGenerated res.data)

/-- `generate_script_from_template(topic)` (src/app.py:42-49). -/
def generate_script_from_template (topic : String) : String :=
  let lines : List String := [
    "This is a short piece about " ++ topic ++ ".",
    "Listen closely — the moment you decide to act, everything changes.",
    "Discipline beats talent when talent won\x27t show up. Believe it.",
    "Now choose: will you move, or will you watch others move instead?"]
  String.intercalate " " lines

/-- Python `str.split` with a one-character separator, over the character
list: splits at every occurrence of `sep`, keeping empty pieces, so the
result is always non-empty (as in Python, `"".split("-") == [""]`). -/
def pySplit (sep : Char) : List Char → List (List Char)
  | [] => [[]]
  | c :: cs =>
      if c = sep then [] :: pySplit sep cs
      else
        match pySplit sep cs with
        | [] => [[c]]
        | w :: ws => (c :: w) :: ws

/-- Model of `voice_lang.split("-")[0]` (src/app.py:107): the language code
actually passed to gTTS.  Python `split` on a non-empty separator always
returns a non-empty list, so index 0 is total. -/
def gttsLang (voice_lang : String) : String :=
  ⟨(pySplit '-' voice_lang.data).headD []⟩

/-- `f"Write a short cinematic motivational script about: \x7btopic\x7d. Keep it punchy, ~30-60 words."`
(src/app.py:97): the instruction posted to the text endpoint. -/
def text_prompt_for (topic : String) : String :=
  "Write a short cinematic motivational script about: " ++ topic ++
    ". Keep it punchy, ~30-60 words."

/-- Greedy line filling for `textwrap.fill`: pack whitespace-separated words
into lines of at most `width` characters. -/
def fillLines (width : Nat) : List String → String → List String
  | [], cur => [cur]
  | w :: ws, cur =>
      if cur.length + 1 + w.length ≤ width then
        fillLines width ws (cur ++ " " ++ w)
      else
        cur :: fillLines width ws w

/-- `textwrap.fill(text, width)` (Python stdlib, used at src/app.py:114):
word-wraps `text` at `width` columns, joining the lines with newlines.
Long-word breaking and whitespace normalisation details of the stdlib are
not modelled; the claims only pass this value through. -/
def textwrap_fill (width : Nat) (s : String) : String :=
  let words := (s.split Char.isWhitespace).filter (· ≠ "")
  match words with
  | [] => ""
  | w :: ws => String.intercalate "\n" (fillLines width ws w)

/-- Dimensions of the image at `img_path`, as moviepy's `ImageClip` sees it. -/
structure ImageFile where
  w : Nat
  h : Nat
deriving DecidableEq, Repr

/-- The audio clip `AudioFileClip(audio_path)`: only its duration (seconds)
matters to the assembly logic. -/
structure AudioClip where
  duration : ℚ
deriving DecidableEq, Repr

/-- Observable parameters of the rendered video as fixed by
`make_video_from_image`. -/
structure VideoOutput where
  width : Nat
  height : Nat
  fps : Nat
  codec : String
  audio_codec : String
  duration : ℚ
  audioDuration : ℚ
  captionText : String
  captionPosX : String
  captionPosY : ℚ
  captionBoxWidth : Nat
  outPath : String
deriving DecidableEq, Repr

/-- `DEFAULT_DURATION = 10` (src/app.py:16). -/
def DEFAULT_DURATION : Nat := 10

/-- `make_video_from_image(img_path, audio_path, text_overlay, duration, out_path)`
(src/app.py:56-69).  In the source `duration` defaults to `DEFAULT_DURATION`
and `out_path` to `"output.mp4"`.

The image clip is resized with `resize(height=target_h)` only, which keeps
the aspect ratio, so its width becomes `w * target_h / h` (integer pixels);
`CompositeVideoClip` without a `size` argument takes the size of its first
clip, so that scaled size is the output frame size.  `target_w = 720` is
used only for the caption box width (`target_w - 80`).  The audio is
truncated with `subclip(0, duration)` when longer than `duration`, and the
file is encoded at `fps=24` with codecs `libx264` / `aac`. -/
def make_video_from_image (img : ImageFile) (audio : AudioClip)
    (text_overlay : String) (duration : ℚ) (out_path : String) : VideoOutput :=
  let target_w : Nat := 720
  let target_h : Nat := 1280
  let clipW : Nat := img.w * target_h / img.h
  let audioDur : ℚ := if audio.duration > duration then duration else audio.duration
  { width := clipW
    height := target_h
    fps := 24
    codec := "libx264"
    audio_codec := "aac"
    duration := duration
    audioDuration := audioDur
    captionText := text_overlay
    captionPosX := "center"
    captionPosY := (8 / 100 : ℚ) * target_h
    captionBoxWidth := target_w - 80
    outPath := out_path }

/-- The six options of the voice-language select box (src/app.py:81). -/
def voice_options : List String := ["en", "en-us", "en-uk", "es", "fr", "de"]

/-- The Streamlit slider (src/app.py:80): shows `default` until the user
drags it, and only ever yields values clamped to `[minVal, maxVal]` (the
source uses `step=1`, so no grid rounding is needed). -/
def st_slider (minVal maxVal _step default : Nat) (choice : Option Nat) : Nat :=
  match choice with
  | none => default
  | some c => min maxVal (max minVal c)

/-- The Streamlit select box (src/app.py:81): shows `options[index]` until
the user picks, and only ever yields one of the listed options. -/
def st_selectbox (options : List String) (index : Nat) (choice : Option Nat) : String :=
  match choice with
  | none => options.getD index ""
  | some c => options.getD (c % options.length) ""

/-- The four user-supplied parameters of one run (src/app.py:78-81). -/
structure GenerationRequest where
  prompt : String
  topic : String
  duration : Nat
  voice_lang : String
deriving DecidableEq, Repr

/-- A `GenerationRequest` as the UI can actually produce it: free text for
prompt and topic, the slider for `duration` (min 6, max 20, default 10,
step 1) and the select box over `voice_options` (default index 0). -/
def mkRequest (promptText topicText : String)
    (durChoice langChoice : Option Nat) : GenerationRequest :=
  { prompt := promptText
    topic := topicText
    duration := st_slider 6 20 1 10 durChoice
    voice_lang := st_selectbox voice_options 0 langChoice }

/-- The script-generation branch (src/app.py:95-102): its inner `try` asks
the text endpoint only when the token is truthy (a non-empty string) and
falls back to the template on any exception.  Returns the script value
(whatever Python value ended up in `script`) together with whether the text
endpoint was contacted. -/
def script_step (topic : String) (hf_token : String)
    (textResult : NetResult TextResponse) : JsonValue × Bool :=
  if hf_token ≠ "" then
    match textResult with
    | .fail _ => (.str (generate_script_from_template topic), true)
    | .respond r =>
        match call_hf_text_gen r with
        | .error _ => (.str (generate_script_from_template topic), true)
        | .ok v => (v, true)
  else
    (.str (generate_script_from_template topic), false)

/-- The script value handed to gTTS and textwrap must be a Python string;
any other value makes those calls raise (modelled as one `typeError`). -/
def scriptAsText : JsonValue → Except PyError String
  | .str s => .ok s
  | v => .error (.typeError ("script value is not a string: " ++ pyStr v))

/-- Outcomes of every external interaction of one run, fixed up front so the
handler is a pure function of them. -/
structure Env where
  /-- outcome of `requests.post` to the image endpoint -/
  imageResult : NetResult HttpResponse
  /-- outcome of `requests.post` to the text endpoint (incl. `res.json()`) -/
  textResult : NetResult TextResponse
  /-- dimensions of the saved image, as `ImageClip` decodes it -/
  imageSize : ImageFile
  /-- `some e` when `tts.save` raises, `none` on success -/
  ttsResult : Option PyError
  /-- duration in seconds of the synthesized `tmp/tts_audio.mp3` -/
  ttsAudioDuration : ℚ
  /-- `some e` when `write_videofile` raises, `none` on success -/
  renderResult : Option PyError
  /-- `int(time.time())` when the output file is named -/
  timeNow : Nat

/-- Everything observable about one press of the button: which external
calls ran, which files were written, what was shown to the user. -/
structure RunState where
  imageCalled : Bool
  textCalled : Bool
  ttsCalled : Bool
  renderCalled : Bool
  filesWritten : List String
  errorShown : Option String
  scriptShown : Option JsonValue
  ttsLangUsed : Option String
  videoOutput : Option VideoOutput
  videoShown : Bool

/-- State before anything has happened. -/
def RunState.initial : RunState :=
  { imageCalled := false
    textCalled := false
    ttsCalled := false
    renderCalled := false
    filesWritten := []
    errorShown := none
    scriptShown := none
    ttsLangUsed := none
    videoOutput := none
    videoShown := false }

/-- The message `st.error` shows when the top-level `except` catches `exc`
(src/app.py:121): `f"Generation failed: \x7bexc\x7d"`. -/
def caughtMessage (e : PyError) : String :=
  "Generation failed: " ++ e.message

/-- The `st.button("Create character image + script + video")` handler
(src/app.py:83-122), step by step:

1. an empty prompt short-circuits to `st.error("Please describe the character.")`;
2. otherwise a single `try` runs image acquisition, script generation
   (with its own inner fallback `try`), gTTS narration, and video assembly
   in order; the first exception aborts the rest and is shown via
   `st.error(f"Generation failed: \x7bexc\x7d")`;
3. `st.text_area` returns its default — the freshly generated script — on
   the rerun in which the button reads as pressed, so the narrated script
   is the generated one. -/
def button_handler (req : GenerationRequest) (hf_token : String) (env : Env) : RunState :=
  if req.prompt = "" then
    { RunState.initial with errorShown := some "Please describe the character." }
  else
    match env.imageResult with
    | .fail e =>
        { RunState.initial with
            imageCalled := true
            errorShown := some (caughtMessage e) }
    | .respond res =>
        match call_hf_inference_image res with
        | .error e =>
            { RunState.initial with
                imageCalled := true
                errorShown := some (caughtMessage e) }
        | .ok _img_bytes =>
            let img_path := "tmp/generated_character.png"
            let (script, textCalled) := script_step req.topic hf_token env.textResult
            let lang := gttsLang req.voice_lang
            match scriptAsText script with
            | .error e =>
                { RunState.initial with
                    imageCalled := true
                    textCalled := textCalled
                    filesWritten := [img_path]
                    scriptShown := some script
                    errorShown := some (caughtMessage e) }
            | .ok scriptStr =>
                match env.ttsResult with
                | some e =>
                    { RunState.initial with
                        imageCalled := true
                        textCalled := textCalled
                        ttsCalled := true
                        filesWritten := [img_path]
                        scriptShown := some script
                        ttsLangUsed := some lang
                        errorShown := some (caughtMessage e) }
                | none =>
                    let audio_path := "tmp/tts_audio.mp3"
                    let out_path := "tmp/final_" ++ toString env.timeNow ++ ".mp4"
                    match env.renderResult with
                    | some e =>
                        { RunState.initial with
                            imageCalled := true
                            textCalled := textCalled
                            ttsCalled := true
                            renderCalled := true
                            filesWritten := [img_path, audio_path]
                            scriptShown := some script
                            ttsLangUsed := some lang
                            errorShown := some (caughtMessage e) }
                    | none =>
                        let video := make_video_from_image env.imageSize
                          ⟨env.ttsAudioDuration⟩ (textwrap_fill 40 scriptStr)
                          (req.duration : ℚ) out_path
                        { imageCalled := true
                          textCalled := textCalled
                          ttsCalled := true
                          renderCalled := true
                          filesWritten := [img_path, audio_path, out_path]
                          errorShown := none
                          scriptShown := some script
                          ttsLangUsed := some lang
                          videoOutput := some video
                          videoShown := true }

/-- Whether the JSON body matches one of the two shapes
`call_hf_text_gen` knows how to extract from (src/app.py:36-39). -/
def generatedShapeMatches : JsonValue → Bool
  | .obj fields => (lookupField fields "generated_text").isSome
  | .arr (first :: _) =>
      match first with
      | .obj fields => (lookupField fields "generated_text").isSome
      | _ => false
  | _ => false

/-- Whether the text-endpoint call raises an exception (request failure, or
a non-200 status turned into a raise at src/app.py:32-33). -/
def text_call_raises : NetResult TextResponse → Bool
  | .fail _ => true
  | .respond r => decide (r.status ≠ 200)

section Claims

/-- Helper: `String.intercalate` on a four-element list is the chain of
appends the `go` loop builds. -/
theorem intercalate_four (s a b c d : String) :
    String.intercalate s [a, b, c, d] = a ++ s ++ b ++ s ++ c ++ s ++ d := rfl

/-- Helper: Python split never yields an empty list of pieces. -/
theorem pySplit_ne_nil (sep : Char) (cs : List Char) : pySplit sep cs ≠ [] := by
  cases cs with
  | nil => simp [pySplit]
  | cons c cs =>
      by_cases h : c = sep
      · simp [pySplit, h]
      · simp only [pySplit, h, if_false, ite_false, reduceIte]
        cases pySplit sep cs <;> simp

/-- Helper: the first piece of a Python split is the run of characters
before the first occurrence of the separator. -/
theorem pySplit_headD (sep : Char) (cs : List Char) :
    (pySplit sep cs).headD [] = cs.takeWhile (fun c => c ≠ sep) := by
  induction cs with
  | nil => simp [pySplit]
  | cons c cs ih =>
      by_cases h : c = sep
      · simp [pySplit, h]
      · simp only [pySplit, h, if_false, ite_false, reduceIte, List.takeWhile]
        cases hs : pySplit sep cs with
        | nil => exact absurd hs (pySplit_ne_nil sep cs)
        | cons w ws =>
            rw [hs] at ih
            simp only [List.headD_cons] at ih
            simp [h, ih]

/-- C3: the image-acquisition call raises exactly when the status is not
200; the raised error carries the upstream status and body (its message is
the f-string over both); on 200 it returns the raw response bytes. -/
theorem image_call_status_contract :
    (∀ res : HttpResponse,
        (∃ e, call_hf_inference_image res = .error e) ↔ res.status ≠ 200)
    ∧ (∀ res : HttpResponse, res.status ≠ 200 →
        call_hf_inference_image res = .error (.imageInferenceFailed res.status res.text))
    ∧ (∀ res : HttpResponse, res.status = 200 →
        call_hf_inference_image res = .ok res.content)
    ∧ (∀ status text, (PyError.imageInferenceFailed status text).message =
        "Hugging Face image inference failed: " ++ toString status ++ " " ++ text) := by
  refine ⟨fun res => ⟨fun ⟨e, he⟩ hs => ?_, fun hs => ?_⟩, fun res hs => ?_,
    fun res hs => ?_, fun status text => rfl⟩
  · simp [call_hf_inference_image, hs] at he
  · exact ⟨.imageInferenceFailed res.status res.text,
      by simp [call_hf_inference_image, hs]⟩
  · simp [call_hf_inference_image, hs]
  · simp [call_hf_inference_image, hs]

/-- Witness for C3 at a failing and a succeeding response. -/
theorem image_call_status_contract_witness :
    call_hf_inference_image ⟨503, [], "service busy"⟩
      = .error (.imageInferenceFailed 503 "service busy")
    ∧ call_hf_inference_image ⟨200, [137, 80, 78, 71], "png"⟩
      = .ok [137, 80, 78, 71] :=
  ⟨image_call_status_contract.2.1 ⟨503, [], "service busy"⟩ (by decide),
   image_call_status_contract.2.2.1 ⟨200, [137, 80, 78, 71], "png"⟩ rfl⟩

/-- C4: with no credential (an empty token string is falsy in Python) the
script step never contacts the text endpoint and always yields the local
fallback template; consequently no run of the whole handler with an empty
token ever calls the text endpoint. -/
theorem no_token_no_text_call :
    (∀ topic textResult, script_step topic "" textResult
        = (.str (generate_script_from_template topic), false))
    ∧ (∀ req env, (button_handler req "" env).textCalled = false) := by
  constructor
  · intro topic textResult
    simp [script_step]
  · intro req env
    have hs : script_step req.topic "" env.textResult
        = (.str (generate_script_from_template req.topic), false) := by
      simp [script_step]
    unfold button_handler
    split
    · rfl
    · split
      · rfl
      · split
        · rfl
        · rw [hs]
          cases env.ttsResult <;> cases env.renderResult <;> rfl

/-- C5: with a credential, the text-generation call extracts the generated
text from a dict with a `"generated_text"` field or from a non-empty list
whose first element is such a dict; when neither shape matches it returns
the stringified raw response instead of failing; and any exception raised
during the step makes the script step fall back to the local template. -/
theorem text_gen_shapes_and_fallback :
    (∀ fields v, lookupField fields "generated_text" = some v →
        extractGenerated (.obj fields) = v)
    ∧ (∀ first rest fields v, first = JsonValue.obj fields →
        lookupField fields "generated_text" = some v →
        extractGenerated (.arr (first :: rest)) = v)
    ∧ (∀ d : JsonValue, generatedShapeMatches d = false →
        extractGenerated d = .str (pyStr d))
    ∧ (∀ topic tok res, tok ≠ "" → text_call_raises res = true →
        script_step topic tok res
          = (.str (generate_script_from_template topic), true)) := by
  refine ⟨fun fields v h => ?_, fun first rest fields v hf h => ?_,
    fun d hd => ?_, fun topic tok res ht hr => ?_⟩
  · simp [extractGenerated, h]
  · subst hf
    simp [extractGenerated, h]
  · cases d with
    | obj fields =>
        simp only [generatedShapeMatches] at hd
        cases h : lookupField fields "generated_text" with
        | none => simp [extractGenerated, h]
        | some v => simp [h] at hd
    | arr items =>
        cases items with
        | nil => simp [extractGenerated]
        | cons first rest =>
            cases first with
            | obj fields =>
                simp only [generatedShapeMatches] at hd
                cases h : lookupField fields "generated_text" with
                | none => simp [extractGenerated, h]
                | some v => simp [h] at hd
            | null => simp [extractGenerated]
            | bool b => simp [extractGenerated]
            | num n => simp [extractGenerated]
            | str s => simp [extractGenerated]
            | arr l => simp [extractGenerated]
    | null => simp [extractGenerated]
    | bool b => simp [extractGenerated]
    | num n => simp [extractGenerated]
    | str s => simp [extractGenerated]
  · cases res with
    | fail e => simp [script_step, ht]
    | respond r =>
        simp only [text_call_raises, decide_eq_true_eq] at hr
        simp [script_step, ht, call_hf_text_gen, hr]

/-- Witness for C5: a matching dict shape is extracted, and a raising call
with a credential falls back to the template. -/
theorem text_gen_shapes_and_fallback_witness :
    extractGenerated (.obj [("generated_text", .str "carpe diem")])
      = .str "carpe diem"
    ∧ script_step "rain" "hf_tok" (.fail (.requestFailure "timeout"))
      = (.str (generate_script_from_template "rain"), true) :=
  ⟨text_gen_shapes_and_fallback.1 [("generated_text", .str "carpe diem")]
      (.str "carpe diem") rfl,
   text_gen_shapes_and_fallback.2.2.2 "rain" "hf_tok"
      (.fail (.requestFailure "timeout")) (by decide) rfl⟩

/-- C7: the local fallback script generator is a pure function of the topic
(equal topics give equal output) and its output contains the topic verbatim
as a contiguous substring. -/
theorem template_deterministic_contains_topic (t : String) :
    (∀ t', t = t' →
        generate_script_from_template t = generate_script_from_template t')
    ∧ List.IsInfix t.data (generate_script_from_template t).data := by
  constructor
  · intro t' h
    rw [h]
  · refine ⟨"This is a short piece about ".data,
      ".".data ++ " ".data
        ++ "Listen closely — the moment you decide to act, everything changes.".data
        ++ " ".data
        ++ "Discipline beats talent when talent won\x27t show up. Believe it.".data
        ++ " ".data
        ++ "Now choose: will you move, or will you watch others move instead?".data,
      ?_⟩
    simp only [generate_script_from_template, intercalate_four, String.data_append,
      List.append_assoc]

/-- Witness for C7 at a concrete topic. -/
theorem template_deterministic_contains_topic_witness :
    generate_script_from_template "mindset and hustle"
      = generate_script_from_template "mindset and hustle"
    ∧ List.IsInfix "mindset and hustle".data
        (generate_script_from_template "mindset and hustle").data :=
  ⟨(template_deterministic_contains_topic "mindset and hustle").1
      "mindset and hustle" rfl,
   (template_deterministic_contains_topic "mindset and hustle").2⟩

/-- C10: with an empty character prompt, pressing the button runs no
pipeline step, writes no file, and only shows the error asking for a
character description. -/
theorem empty_prompt_blocks_run (req : GenerationRequest) (tok : String)
    (env : Env) (h : req.prompt = "") :
    button_handler req tok env
      = { RunState.initial with
            errorShown := some "Please describe the character." } := by
  simp [button_handler, h]

/-- Witness for C10 at a concrete empty-prompt request. -/
theorem empty_prompt_blocks_run_witness :
    button_handler ⟨"", "hustle", 10, "en"⟩ ""
        ⟨.fail (.requestFailure "down"), .fail (.requestFailure "down"),
          ⟨720, 1280⟩, none, 5, none, 1700000000⟩
      = { RunState.initial with
            errorShown := some "Please describe the character." } :=
  empty_prompt_blocks_run ⟨"", "hustle", 10, "en"⟩ ""
    ⟨.fail (.requestFailure "down"), .fail (.requestFailure "down"),
      ⟨720, 1280⟩, none, 5, none, 1700000000⟩ rfl

/-- C2: when the image endpoint answers with a non-200 status and the
prompt is non-empty, the run aborts before the script, narration and video
steps, shows the caught error, writes no file and produces no video. -/
theorem image_failure_aborts_run (req : GenerationRequest) (tok : String)
    (env : Env) (r : HttpResponse) (hp : req.prompt ≠ "")
    (hr : env.imageResult = .respond r) (hs : r.status ≠ 200) :
    (button_handler req tok env).imageCalled = true
    ∧ (button_handler req tok env).textCalled = false
    ∧ (button_handler req tok env).ttsCalled = false
    ∧ (button_handler req tok env).renderCalled = false
    ∧ (button_handler req tok env).errorShown
        = some (caughtMessage (.imageInferenceFailed r.status r.text))
    ∧ (button_handler req tok env).filesWritten = []
    ∧ (button_handler req tok env).videoOutput = none
    ∧ (button_handler req tok env).videoShown = false := by
  have hcall : call_hf_inference_image r
      = .error (.imageInferenceFailed r.status r.text) := by
    simp [call_hf_inference_image, hs]
  simp [button_handler, hp, hr, hcall, RunState.initial]

/-- Witness for C2: a concrete 503 from the image endpoint. -/
theorem image_failure_aborts_run_witness :
    (button_handler ⟨"a hero", "hustle", 10, "en"⟩ ""
        ⟨.respond ⟨503, [], "busy"⟩, .fail (.requestFailure "down"),
          ⟨720, 1280⟩, none, 5, none, 1700000000⟩).textCalled = false
    ∧ (button_handler ⟨"a hero", "hustle", 10, "en"⟩ ""
        ⟨.respond ⟨503, [], "busy"⟩, .fail (.requestFailure "down"),
          ⟨720, 1280⟩, none, 5, none, 1700000000⟩).errorShown
        = some (caughtMessage (.imageInferenceFailed 503 "busy"))
    ∧ (button_handler ⟨"a hero", "hustle", 10, "en"⟩ ""
        ⟨.respond ⟨503, [], "busy"⟩, .fail (.requestFailure "down"),
          ⟨720, 1280⟩, none, 5, none, 1700000000⟩).filesWritten = [] := by
  have h := image_failure_aborts_run ⟨"a hero", "hustle", 10, "en"⟩ ""
    ⟨.respond ⟨503, [], "busy"⟩, .fail (.requestFailure "down"),
      ⟨720, 1280⟩, none, 5, none, 1700000000⟩ ⟨503, [], "busy"⟩
    (by decide) rfl (by decide)
  exact ⟨h.2.1, h.2.2.2.2.1, h.2.2.2.2.2.1⟩

/-- C1 counterexample: the output frame size is not fixed.  The image clip
is resized by height only, so two input images of different aspect ratios
(here 1280x1280 and 640x1280, with identical audio, caption, duration and
output path) yield different frame widths. -/
theorem frame_size_not_fixed :
    (make_video_from_image ⟨1280, 1280⟩ ⟨5⟩ "caption" 10 "output.mp4").width
      ≠ (make_video_from_image ⟨640, 1280⟩ ⟨5⟩ "caption" 10 "output.mp4").width := by
  decide

/-- C1 amended: the assembly step fixes the frame height (1280), the frame
rate (24), and the codec pair (libx264/aac); the frame width is the input
image width scaled to that height; the caption is the text the caller
passed (word-wrapped by the caller), horizontally centered at 8% of the
target height from the top, above mid-frame; the clip lasts the requested
duration. -/
theorem make_video_fixed_params (img : ImageFile) (audio : AudioClip)
    (text_overlay : String) (duration : ℚ) (out_path : String) :
    (make_video_from_image img audio text_overlay duration out_path).height = 1280
    ∧ (make_video_from_image img audio text_overlay duration out_path).fps = 24
    ∧ (make_video_from_image img audio text_overlay duration out_path).codec = "libx264"
    ∧ (make_video_from_image img audio text_overlay duration out_path).audio_codec = "aac"
    ∧ (make_video_from_image img audio text_overlay duration out_path).width
        = img.w * 1280 / img.h
    ∧ (make_video_from_image img audio text_overlay duration out_path).captionText
        = text_overlay
    ∧ (make_video_from_image img audio text_overlay duration out_path).captionPosX
        = "center"
    ∧ (make_video_from_image img audio text_overlay duration out_path).captionPosY
        = (8 / 100 : ℚ) * 1280
    ∧ (make_video_from_image img audio text_overlay duration out_path).captionPosY
        < 1280 / 2
    ∧ (make_video_from_image img audio text_overlay duration out_path).duration
        = duration
    ∧ (make_video_from_image img audio text_overlay duration out_path).outPath
        = out_path := by
  refine ⟨rfl, rfl, rfl, rfl, rfl, rfl, rfl, rfl, ?_, rfl, rfl⟩
  show (8 / 100 : ℚ) * 1280 < 1280 / 2
  norm_num

/-- C6: for any requested duration in the supported range, the audio
attached to the final video never exceeds that duration: a longer source is
cut to the sub-clip from 0 to the requested duration, a shorter one is kept
as is. -/
theorem audio_trimmed_to_duration (D : Nat) (h6 : 6 ≤ D) (h20 : D ≤ 20)
    (img : ImageFile) (audio : AudioClip) (text_overlay out_path : String) :
    (make_video_from_image img audio text_overlay (D : ℚ) out_path).audioDuration
        ≤ (D : ℚ)
    ∧ (audio.duration > (D : ℚ) →
        (make_video_from_image img audio text_overlay (D : ℚ) out_path).audioDuration
          = (D : ℚ))
    ∧ (audio.duration ≤ (D : ℚ) →
        (make_video_from_image img audio text_overlay (D : ℚ) out_path).audioDuration
          = audio.duration) := by
  refine ⟨?_, fun hgt => ?_, fun hle => ?_⟩
  · show (if audio.duration > (D : ℚ) then (D : ℚ) else audio.duration) ≤ (D : ℚ)
    split
    · exact le_refl _
    · next hng => exact le_of_not_lt hng
  · show (if audio.duration > (D : ℚ) then (D : ℚ) else audio.duration) = (D : ℚ)
    exact if_pos hgt
  · show (if audio.duration > (D : ℚ) then (D : ℚ) else audio.duration)
        = audio.duration
    exact if_neg (not_lt.mpr hle)

/-- Witness for C6: a 15-second narration against a 10-second request is
trimmed to 10 seconds. -/
theorem audio_trimmed_to_duration_witness :
    (make_video_from_image ⟨720, 1280⟩ ⟨15⟩ "cap" ((10 : Nat) : ℚ)
        "out.mp4").audioDuration ≤ ((10 : Nat) : ℚ)
    ∧ (make_video_from_image ⟨720, 1280⟩ ⟨15⟩ "cap" ((10 : Nat) : ℚ)
        "out.mp4").audioDuration = ((10 : Nat) : ℚ) := by
  have h := audio_trimmed_to_duration 10 (by norm_num) (by norm_num)
    ⟨720, 1280⟩ ⟨15⟩ "cap" "out.mp4"
  exact ⟨h.1, h.2.1 (by norm_num)⟩

/-- C8: every request the UI can submit has an integer duration clamped to
the slider range 6..20 and a voice language drawn from the select box's
list of exactly six options. -/
theorem request_duration_and_lang_bounds (p t : String)
    (durChoice langChoice : Option Nat) :
    6 ≤ (mkRequest p t durChoice langChoice).duration
    ∧ (mkRequest p t durChoice langChoice).duration ≤ 20
    ∧ (mkRequest p t durChoice langChoice).voice_lang ∈ voice_options
    ∧ voice_options.length = 6 := by
  refine ⟨?_, ?_, ?_, rfl⟩
  · cases durChoice with
    | none => norm_num [mkRequest, st_slider]
    | some c =>
        simp only [mkRequest, st_slider]
        omega
  · cases durChoice with
    | none => norm_num [mkRequest, st_slider]
    | some c =>
        simp only [mkRequest, st_slider]
        omega
  · cases langChoice with
    | none => simp [mkRequest, st_selectbox, voice_options]
    | some c =>
        simp only [mkRequest, st_selectbox]
        have hc : c % voice_options.length < 6 :=
          Nat.mod_lt _ (by norm_num [voice_options])
        set k := c % voice_options.length with hk
        interval_cases k <;> decide

/-- C9: the language code handed to gTTS is exactly the characters of the
selected option before its first hyphen; in particular the options
`en-us`, `en-uk` and `en` all synthesize with language code `en`, and every
run that reaches the narration step uses that truncated code. -/
theorem voice_lang_truncated_at_hyphen :
    (∀ l : String, (gttsLang l).data = l.data.takeWhile (fun c => c ≠ '-'))
    ∧ gttsLang "en-us" = "en"
    ∧ gttsLang "en-uk" = "en"
    ∧ gttsLang "en" = "en"
    ∧ gttsLang "en-us" = gttsLang "en"
    ∧ (∀ req tok env, (button_handler req tok env).ttsLangUsed = none
        ∨ (button_handler req tok env).ttsLangUsed
            = some (gttsLang req.voice_lang)) := by
  refine ⟨fun l => ?_, by decide, by decide, by decide, by decide,
    fun req tok env => ?_⟩
  · show (pySplit '-' l.data).headD [] = l.data.takeWhile (fun c => c ≠ '-')
    exact pySplit_headD '-' l.data
  · unfold button_handler
    split
    · left; rfl
    · split
      · left; rfl
      · split
        · left; rfl
        · split
          · split
            · left; rfl
            · split
              · right; rfl
              · split
                · right; rfl
                · right; rfl

/-- Witness for C9 at the option `en-us`. -/
theorem voice_lang_truncated_at_hyphen_witness :
    (gttsLang "en-us").data = "en-us".data.takeWhile (fun c => c ≠ '-')
    ∧ gttsLang "en-us" = "en" :=
  ⟨voice_lang_truncated_at_hyphen.1 "en-us",
   voice_lang_truncated_at_hyphen.2.1⟩

end Claims

end App
